import Mathlib

/-!
Verification of the remote-state poller of the quirky_binder capnp client
(src/src/main.rs), as a shallow embedding in Lean.

The embedding covers:
* `node_name_to_dot_id` (main.rs line 30): quoting of node names for the
  dot graph description;
* the description builder inside `state_poller` (main.rs lines 93..160):
  the per-cycle construction of the dot text from the graph topology and
  the per-node status snapshot, with the capnp list accesses
  `get_output_written()?.get(tail_index)` and `get_input_read()?.get(head_index)`
  modelled so that an out-of-bounds access (which panics in the source)
  yields `none`;
* `dot_to_svg` (main.rs lines 34..55): success/failure of the layout
  subprocess, as a function of the observed process exit code, stdout and
  stderr;
* the poll loop with its cancellation race (main.rs lines 174..185): a
  step-trace model of the `select` between one full update cycle and
  the cancellation future;
* the `sync_channel(1)` delivery channel (main.rs lines 216 and 262..285):
  bounded buffer, blocking send, non-blocking try_recv with the
  Empty/Disconnected distinction of std mpsc;
* the command-line argument parsing at the top of `state_poller`
  (main.rs lines 62..67).
-/

/-! ### Generic string containment (used to state the "description contains ..." claims) -/

/-- Char-list version of a starts-with test, with decidable char equality. -/
def startsWithChars : List Char → List Char → Bool
  | [], _ => true
  | _ :: _, [] => false
  | a :: as, b :: bs => a == b && startsWithChars as bs

/-- Does `hay` contain `needle` as a contiguous sub-list? -/
def subCharsCheck : List Char → List Char → Bool
  | needle, [] => needle.isEmpty
  | needle, h :: t => startsWithChars needle (h :: t) || subCharsCheck needle t

/-- `containsStr s sub` holds when `sub` occurs contiguously inside `s`. -/
def containsStr (s sub : String) : Bool :=
  subCharsCheck sub.data s.data

/-! ### node_name_to_dot_id (main.rs line 30..32)

The source is `format!("\"{name}\"")`: it wraps the raw name in double
quotes and performs no escaping of the characters of the name. -/

/-- Embeds `node_name_to_dot_id` of main.rs: wrap the name in double quotes. -/
def node_name_to_dot_id (name : String) : String :=
  "\"" ++ name ++ "\""

/-- Body scanner for a double-quoted identifier of the dot language
(modelled from the layout engine grammar, which the spec calls the
"textual grammar"): after the opening quote, a backslash escapes the
next character, and the first unescaped double quote must be the final
character. Returns true when the remaining characters form a properly
terminated quoted-string body. -/
def dotQuotedBody : List Char → Bool
  | [] => false
  | c :: rest =>
    if c = '\\' then
      match rest with
      | [] => false
      | _ :: rest2 => dotQuotedBody rest2
    else if c = '"' then rest.isEmpty
    else dotQuotedBody rest

/-- A string is a syntactically well-formed double-quoted dot identifier:
it opens with a double quote and its body is properly escaped and
terminated. -/
def isQuotedDotId (s : String) : Bool :=
  match s.data with
  | [] => false
  | c :: rest => if c = '"' then dotQuotedBody rest else false

/-! ### The description builder (main.rs lines 93..160) -/

/-- One entry of the node-status snapshot: the ordered per-port counters
`output_written` and `input_read` of one reporting node. -/
structure NodeStatus where
  output_written : List Nat
  input_read : List Nat
  deriving DecidableEq

/-- One edge of the pipeline graph: tail node name, tail output-port
index, head node name, head input-port index. -/
structure Edge where
  tail_name : String
  tail_index : Nat
  head_name : String
  head_index : Nat
  deriving DecidableEq

/-- The pipeline graph fetched once per session: node names and
port-indexed directed edges. -/
structure Graph where
  nodes : List String
  edges : List Edge
  deriving DecidableEq

/-- Lookup in the snapshot map. The source collects the snapshot entries
into a BTreeMap keyed by node name, where a later entry for the same key
overwrites an earlier one; looking up in the reversed association list
returns exactly that last binding. -/
def statusLookup (statuses : List (String × NodeStatus)) (name : String) : Option NodeStatus :=
  statuses.reverse.lookup name

/-- The counter lookup of main.rs lines 128..138:
`statuses.get(name).map(|s| s.get_output_written()?.get(index))` (and the
input_read analogue). The outer `Option` is `none` exactly when the capnp
list access is out of bounds, which panics in the source; the inner
`Option` is `none` when the node has no snapshot entry (no label). -/
def counterLookup (statuses : List (String × NodeStatus)) (name : String)
    (proj : NodeStatus → List Nat) (i : Nat) : Option (Option Nat) :=
  match statusLookup statuses name with
  | none => some none
  | some s =>
    match (proj s).get? i with
    | none => none
    | some v => some (some v)

/-- The attribute list written for one edge (main.rs lines 140..148):
the optional taillabel followed by the optional headlabel, each carrying
the decimal rendering of its counter. -/
def labelList (tc hc : Option Nat) : List (String × String) :=
  (match tc with
   | none => []
   | some n => [("taillabel", toString n)]) ++
  (match hc with
   | none => []
   | some n => [("headlabel", toString n)])

/-- The attributes of one edge as computed by the builder, `none` when a
counter lookup panics (out-of-bounds capnp list access). The tail lookup
is performed before the head lookup, as in the source. -/
def edgeAttrs (statuses : List (String × NodeStatus)) (e : Edge) :
    Option (List (String × String)) :=
  match counterLookup statuses e.tail_name NodeStatus.output_written e.tail_index with
  | none => none
  | some tc =>
    match counterLookup statuses e.head_name NodeStatus.input_read e.head_index with
    | none => none
    | some hc => some (labelList tc hc)

/-- The text written by the enumerated attribute loop of main.rs lines
140..156: the first attribute is preceded by a newline, every later one
by a comma and a space, and each attribute line is
`name = "value"` followed by a newline. -/
def attrsText : Nat → List (String × String) → String
  | _, [] => ""
  | i, (a, v) :: rest =>
    (if i > 0 then ", " else "\n") ++ a ++ " = \"" ++ v ++ "\"\n" ++ attrsText (i + 1) rest

/-- The full statement written for one edge (main.rs lines 121..158):
quoted tail id, arrow, quoted head id, bracketed attribute text, closing
bracket, newline. `none` models the panic of an out-of-bounds counter
access. -/
def edgeText (statuses : List (String × NodeStatus)) (e : Edge) : Option String :=
  match edgeAttrs statuses e with
  | none => none
  | some attrs =>
    some (node_name_to_dot_id e.tail_name ++ " -> " ++ node_name_to_dot_id e.head_name
      ++ " [" ++ attrsText 0 attrs ++ "]\n")

/-- Sequential effectful map over a list in the Option monad: the first
`none` (panic) aborts the whole construction, as in the source where the
writing loop stops at the first panic. -/
def mapOption (f : α → Option β) : List α → Option (List β)
  | [] => some []
  | a :: t =>
    match f a with
    | none => none
    | some b =>
      match mapOption f t with
      | none => none
      | some bs => some (b :: bs)

/-- The node statements of main.rs lines 107..113: one quoted node id
per line, in graph order. -/
def nodesText (nodes : List String) : String :=
  String.join (nodes.map (fun n => node_name_to_dot_id n ++ "\n"))

/-- The whole description built by one cycle (main.rs lines 101..160):
header line, node statements, edge statements, closing brace. `none`
models a panic during an edge counter lookup. -/
def buildDot (g : Graph) (statuses : List (String × NodeStatus)) : Option String :=
  match mapOption (edgeText statuses) g.edges with
  | none => none
  | some ets =>
    some ("digraph G \x7b\n" ++ nodesText g.nodes ++ String.join ets ++ "\x7d\n")

/-! ### dot_to_svg (main.rs lines 34..55)

The subprocess interaction is modelled by its observable outcome: the
exit code of the dot child process and the (utf-8 decoded) stdout and
stderr contents. On exit code 0 the stdout text is returned; otherwise
the error message is a fixed French prefix followed by the stderr text
verbatim. The prefix is reproduced byte-for-byte from the source, which
contains the literal characters U+0027, U+221A and U+00A9 in the middle
of the word; they are spelled with Char.ofNat here. -/

/-- The observable outcome of running the dot child process. -/
structure ProcOutput where
  exitCode : Nat
  stdoutStr : String
  stderrStr : String
  deriving DecidableEq

/-- The literal message head of main.rs line 52, up to and including the
colon and trailing space before the interpolated stderr text. -/
def dotErrorHead : String :=
  "Erreur lors de l" ++ String.mk [Char.ofNat 39] ++ "ex"
    ++ String.mk [Char.ofNat 8730, Char.ofNat 169]
    ++ "cution de la commande dot : "

/-- Embeds `dot_to_svg` of main.rs as a function of the observed child
process outcome: `output.status.success()` is exit code 0; on failure the
error carries the message head followed by the captured stderr verbatim. -/
def dot_to_svg (out : ProcOutput) : Except String String :=
  if out.exitCode = 0 then Except.ok out.stdoutStr
  else Except.error (dotErrorHead ++ out.stderrStr)

/-! ### The poll loop and its cancellation race (main.rs lines 174..185)

One update cycle (the `update_graph` closure, main.rs lines 93..172) is
the sequence: await the node_statuses RPC round trip (`fetch`), build the
dot text synchronously (`build`), await the dot child process (`render`),
perform the synchronous blocking channel send (`deliver`), await the
3000 ms timer (`wait`). The loop races the whole cycle future against the
cancellation future with `select`; when the cancellation future completes
while the cycle future is parked at one of its await points, the
cancellation branch wins, the cycle future is dropped (its remaining
steps are abandoned) and the loop breaks to the disconnect sequence
(main.rs line 187). The synchronous segments (`build`, `deliver`) cannot
be preempted. Time is counted in completed steps; `cancelAt c` is the
cancellation signal that has fired at every instant from `c` on (the
token is set once and never reset). The model covers the non-error path:
RPC and layout failures, which also end the loop, are not raced here. -/

/-- The steps of the poll loop trace. -/
inductive Step
  | fetch
  | build
  | render
  | deliver
  | wait
  | disconnect
  deriving DecidableEq

/-- Steps at which the cycle future parks awaiting an external event:
the statuses RPC, the dot child process, the interval timer. The dot
text construction and the blocking channel send are synchronous. -/
def isSuspension : Step → Bool
  | Step.fetch => true
  | Step.render => true
  | Step.wait => true
  | _ => false

/-- The steps of one full update cycle, in source order. -/
def stepsOfCycle : List Step := [Step.fetch, Step.build, Step.render, Step.deliver, Step.wait]

/-- A monotone cancellation signal: fired at every instant from `c` on. -/
def cancelAt (c t : Nat) : Bool :=
  decide (c ≤ t)

/-- Run one cycle from time `t`: at each suspension step the select
checks the cancellation signal while the cycle future is parked; if it
has fired, the step and everything after it are abandoned (`false`
marks an abandoned cycle). Returns the executed steps, whether the
cycle completed, and the time reached. -/
def runCycle (cancel : Nat → Bool) : Nat → List Step → List Step × Bool × Nat
  | t, [] => ([], true, t)
  | t, s :: rest =>
    if isSuspension s && cancel t then ([], false, t)
    else
      match runCycle cancel (t + 1) rest with
      | (evs, ok, t2) => (s :: evs, ok, t2)

/-- The poll loop of main.rs lines 174..185: repeat full cycles until the
cancellation branch of the select wins, then break to the disconnect
sequence. `fuel` bounds the number of cycles observed (the source loop is
unbounded); a trace that exhausts its fuel just stops being observed. -/
def runLoop (cancel : Nat → Bool) : Nat → Nat → List Step
  | 0, _ => []
  | fuel + 1, t =>
    match runCycle cancel t stepsOfCycle with
    | (evs, true, t2) => evs ++ runLoop cancel fuel t2
    | (evs, false, _) => evs ++ [Step.disconnect]

/-- The steps of one completed cycle. -/
def fullCycle : List Step := [Step.fetch, Step.build, Step.render, Step.deliver, Step.wait]

/-! ### The delivery channel (main.rs lines 216, 165, 262..285)

`sync_channel(1)` gives a rendezvous buffer of capacity one: `send`
blocks while the buffer already holds an undrained item, `try_recv`
returns a buffered item, or Empty while the sender is alive, or
Disconnected once the sender handle has been dropped and the buffer is
empty. Buffered items are still delivered after the sender is dropped. -/

/-- The state of the sync channel: buffered items (front = oldest) and
whether the producer handle has been dropped. -/
structure Channel where
  buffer : List String
  senderDropped : Bool
  deriving DecidableEq

/-- The capacity passed to `sync_channel` in main.rs line 216. -/
def channelBound : Nat := 1

/-- Result of the non-blocking consumer poll, mirroring
`Ok / Err(TryRecvError::Empty) / Err(TryRecvError::Disconnected)`. -/
inductive TryRecvResult
  | item (s : String)
  | empty
  | closed
  deriving DecidableEq

/-- Result of a producer send attempt: `sent` with the new state, or
`wouldBlock` when the buffer is full and the producer thread parks
until the consumer drains an item. -/
inductive SendResult
  | sent (ch : Channel)
  | wouldBlock
  deriving DecidableEq

/-- Non-blocking `try_recv` of main.rs line 262. -/
def tryRecv (ch : Channel) : TryRecvResult × Channel :=
  match ch.buffer with
  | v :: rest => (TryRecvResult.item v, { ch with buffer := rest })
  | [] =>
    if ch.senderDropped then (TryRecvResult.closed, ch)
    else (TryRecvResult.empty, ch)

/-- Blocking `send` of main.rs line 165, one attempt: enqueue when a
slot is free, otherwise the producer blocks. -/
def send (ch : Channel) (v : String) : SendResult :=
  if ch.buffer.length < channelBound then
    SendResult.sent { ch with buffer := ch.buffer ++ [v] }
  else SendResult.wouldBlock

/-- Operations the two threads can attempt on the channel. -/
inductive ChanOp
  | opSend (v : String)
  | opRecv
  deriving DecidableEq

/-- Apply one operation: a send that would block leaves the state
unchanged (the producer stays parked and nothing is enqueued). -/
def applyOp (ch : Channel) : ChanOp → Channel
  | ChanOp.opSend v =>
    match send ch v with
    | SendResult.sent ch2 => ch2
    | SendResult.wouldBlock => ch
  | ChanOp.opRecv => (tryRecv ch).2

/-- The channel state reached from the initial open empty channel by a
sequence of operations. -/
def runOps (ops : List ChanOp) : Channel :=
  ops.foldl applyOp ⟨[], false⟩

/-- The results of `n` consecutive try_recv calls from a given state. -/
def recvTrace (ch : Channel) : Nat → List TryRecvResult
  | 0 => []
  | n + 1 =>
    match tryRecv ch with
    | (r, ch2) => r :: recvTrace ch2 n

/-! ### Command-line argument parsing (main.rs lines 62..67)

`state_poller` first skips the program name, takes the next argument (or
the placeholder text "PID missing" when absent) and parses it as a u32
with `str::parse`; a parse failure is returned as an error before any
connection is attempted. -/

/-- Model of `str::parse::<u32>`: an optional leading plus sign, then at
least one ascii digit, and the value must fit in 32 bits. -/
def parseU32 (s : String) : Option Nat :=
  let ds := match s.data with
    | '+' :: rest => rest
    | cs => cs
  if ds.isEmpty then none
  else if ds.all Char.isDigit then
    let n := ds.foldl (fun acc c => acc * 10 + (c.toNat - 48)) 0
    if n < 2 ^ 32 then some n else none
  else none

/-- The pid extracted from the argument list (full argv, program name
first), exactly as main.rs lines 62..67 compute it. -/
def pollerPid (argv : List String) : Option Nat :=
  parseU32 ((argv.drop 1).headD "PID missing")

/-- How far `state_poller` gets before touching the network: with an
unusable pid argument it returns the parse error (the `?` on line 67)
before `connect` is ever called; otherwise it proceeds to connect with
the parsed pid. -/
inductive PollerOutcome
  | earlyArgError
  | connected (pid : Nat)
  deriving DecidableEq

/-- The pre-connection phase of `state_poller`. -/
def pollerStart (argv : List String) : PollerOutcome :=
  match pollerPid argv with
  | none => PollerOutcome.earlyArgError
  | some pid => PollerOutcome.connected pid

/-! ### Helper lemmas -/

theorem startsWithChars_self (l : List Char) : startsWithChars l l = true := by
  induction l with
  | nil => rfl
  | cons a as ih => simp [startsWithChars, ih]

theorem subCharsCheck_append (p s : List Char) : subCharsCheck s (p ++ s) = true := by
  induction p with
  | nil =>
    cases s with
    | nil => rfl
    | cons h t => simp [subCharsCheck, startsWithChars_self]
  | cons a p ih => simp [subCharsCheck, ih]

theorem containsStr_append_self (a b : String) : containsStr (a ++ b) b = true := by
  unfold containsStr
  rw [String.data_append]
  exact subCharsCheck_append a.data b.data

theorem dotQuotedBody_clean (l : List Char)
    (h : ∀ c ∈ l, c ≠ '"' ∧ c ≠ '\\') : dotQuotedBody (l ++ ['"']) = true := by
  induction l with
  | nil => decide
  | cons c t ih =>
    have hc := h c (List.mem_cons_self c t)
    have ht : ∀ x ∈ t, x ≠ '"' ∧ x ≠ '\\' := fun x hx => h x (List.mem_cons_of_mem c hx)
    rw [List.cons_append, dotQuotedBody.eq_def]
    simp only [if_neg hc.2, if_neg hc.1]
    exact ih ht

theorem recvTrace_drained (n : Nat) :
    recvTrace ⟨[], true⟩ n = List.replicate n TryRecvResult.closed := by
  induction n with
  | zero => rfl
  | succ n ih => simp [recvTrace, tryRecv, ih, List.replicate_succ]

/-! ### C1 -/

/-- C1 counterexample: the claim states that for every node name, including
names containing double quotes, the emitted identifier is escaped/quoted so
that the description stays syntactically well-formed. For the name a"b the
source emits "a"b" without escaping the inner quote, which is not a
well-formed double-quoted dot identifier: the claim as stated is false. -/
theorem c1_counterexample :
    isQuotedDotId (node_name_to_dot_id "a\"b") = false := by decide

/-- C1 (amended): node_name_to_dot_id wraps the name in double quotes
without escaping anything, so the emitted identifier is a well-formed
double-quoted dot identifier exactly for names that contain no double
quote and no backslash; names with spaces or other special characters are
handled by the quoting. -/
theorem c1_quoting_wellformed (name : String)
    (h : ∀ c ∈ name.data, c ≠ '"' ∧ c ≠ '\\') :
    isQuotedDotId (node_name_to_dot_id name) = true := by
  obtain ⟨l⟩ := name
  show dotQuotedBody (l ++ ['"']) = true
  exact dotQuotedBody_clean l h

/-- C1 witness: a name containing a space is quoted into a well-formed
dot identifier. -/
theorem c1_quoting_wellformed_witness :
    isQuotedDotId (node_name_to_dot_id "node with spaces") = true :=
  c1_quoting_wellformed "node with spaces" (by decide)

/-! ### C8 -/

/-- C8: whenever the dot child process exits with a non-zero status,
dot_to_svg fails with an error whose message is the fixed message head
followed by the captured stderr content verbatim; in particular the
message contains the stderr content as a contiguous substring. -/
theorem c8_nonzero_exit_error (out : ProcOutput) (h : out.exitCode ≠ 0) :
    dot_to_svg out = Except.error (dotErrorHead ++ out.stderrStr) ∧
    containsStr (dotErrorHead ++ out.stderrStr) out.stderrStr = true := by
  constructor
  · unfold dot_to_svg
    rw [if_neg h]
  · exact containsStr_append_self dotErrorHead out.stderrStr

/-- C8 witness: exit status 1 with stderr "bad input" produces an error
whose message contains "bad input". -/
theorem c8_nonzero_exit_error_witness :
    dot_to_svg ⟨1, "", "bad input"⟩ = Except.error (dotErrorHead ++ "bad input") ∧
    containsStr (dotErrorHead ++ "bad input") "bad input" = true :=
  c8_nonzero_exit_error ⟨1, "", "bad input"⟩ (by decide)

/-! ### C4 -/

/-- C4: once the poller thread has terminated and the producer handle has
been dropped (senderDropped), the consumer first drains whatever is still
buffered and from then on every try_recv returns Closed: the Closed
transition happens exactly once and is terminal, and no item ever arrives
after it. -/
theorem c4_closed_terminal (buf : List String) (n : Nat) :
    recvTrace ⟨buf, true⟩ (buf.length + n) =
      buf.map TryRecvResult.item ++ List.replicate n TryRecvResult.closed := by
  induction buf with
  | nil => simpa using recvTrace_drained n
  | cons v t ih =>
    have harith : (v :: t).length + n = (t.length + n) + 1 := by
      simp [List.length_cons]; omega
    rw [harith]
    simp [recvTrace, tryRecv, ih]

/-! ### C10 -/

/-- C10: when the second argv entry is missing or does not parse as a
numeric pid, state_poller returns an error before any connection attempt,
and the consumer side of the (empty, dropped) channel observes Closed on
every subsequent poll. -/
theorem c10_bad_pid_early_error (argv : List String) (h : pollerPid argv = none) (n : Nat) :
    pollerStart argv = PollerOutcome.earlyArgError ∧
    recvTrace ⟨[], true⟩ n = List.replicate n TryRecvResult.closed := by
  constructor
  · unfold pollerStart
    rw [h]
  · exact recvTrace_drained n

/-- C10 witness: a non-numeric pid argument gives the early error and the
channel is observed closed. -/
theorem c10_bad_pid_early_error_witness :
    pollerStart ["qb-capnp-client", "not-a-pid"] = PollerOutcome.earlyArgError ∧
    recvTrace ⟨[], true⟩ 2 = List.replicate 2 TryRecvResult.closed :=
  c10_bad_pid_early_error ["qb-capnp-client", "not-a-pid"] (by decide) 2

/-! ### C5 -/

/-- The graph of the spec scenario: nodes A and B, one edge from output
port 0 of A to input port 0 of B. -/
def exGraph : Graph := ⟨["A", "B"], [⟨"A", 0, "B", 0⟩]⟩

/-- The snapshot of the spec scenario: A reports output_written = [5],
B reports input_read = [3]. -/
def exStatuses : List (String × NodeStatus) := [("A", ⟨[5], []⟩), ("B", ⟨[], [3]⟩)]

/-- The description actually produced for the scenario. -/
def exDot : String :=
  "digraph G \x7b\n\"A\"\n\"B\"\n\"A\" -> \"B\" [\ntaillabel = \"5\"\n, headlabel = \"3\"\n]\n\x7d\n"

/-- C5 counterexample: the claim states that the produced description
contains the exact edge statement A -> B [taillabel="5", headlabel="3"].
The builder quotes the node identifiers, puts spaces around the equals
signs and separates the attributes with newlines, so that exact text does
not occur in the produced description. -/
theorem c5_counterexample :
    buildDot exGraph exStatuses = some exDot ∧
    containsStr exDot "A -> B [taillabel=\"5\", headlabel=\"3\"]" = false := by
  decide

/-- C5 (amended): for the scenario graph and snapshot the produced
description contains the edge statement for A -> B with taillabel "5" and
headlabel "3", written as quoted identifiers with the attributes on
separate lines. -/
theorem c5_scenario_edge_statement :
    buildDot exGraph exStatuses = some exDot ∧
    containsStr exDot "\"A\" -> \"B\" [\ntaillabel = \"5\"\n, headlabel = \"3\"\n]" = true := by
  decide

/-! ### C9 -/

theorem mapOption_eq_none {α β : Type} (f : α → Option β) (l : List α) (x : α)
    (hx : x ∈ l) (hf : f x = none) : mapOption f l = none := by
  induction l with
  | nil => cases hx
  | cons a t ih =>
    cases hx with
    | head => simp [mapOption, hf]
    | tail _ hxt =>
      cases hfa : f a with
      | none => simp [mapOption, hfa]
      | some b => simp [mapOption, hfa, ih hxt]

/-- C9: the description build is not total in the port indices. If a node
present in the snapshot reports an output_written list of length at most
the declared tail port index of one of the graph's edges, the counter
lookup is out of bounds: the capnp list access panics (modelled as none),
so no description is produced at all; the label is not omitted and no
error value is returned. The spec states no such precondition. -/
theorem c9_short_counter_list_panics (g : Graph) (statuses : List (String × NodeStatus))
    (e : Edge) (s : NodeStatus) (he : e ∈ g.edges)
    (hs : statusLookup statuses e.tail_name = some s)
    (hlen : s.output_written.length ≤ e.tail_index) :
    buildDot g statuses = none := by
  have hget : s.output_written[e.tail_index]? = none := List.getElem?_eq_none hlen
  have het : edgeText statuses e = none := by
    simp [edgeText, edgeAttrs, counterLookup, hs, hget]
  simp [buildDot, mapOption_eq_none (edgeText statuses) g.edges e he het]

/-- C9 witness: node A reports a single output counter while the edge
declares tail port 1; the build panics (produces no description). -/
theorem c9_short_counter_list_panics_witness :
    buildDot ⟨["A", "B"], [⟨"A", 1, "B", 0⟩]⟩ [("A", ⟨[5], []⟩)] = none :=
  c9_short_counter_list_panics ⟨["A", "B"], [⟨"A", 1, "B", 0⟩]⟩ [("A", ⟨[5], []⟩)]
    ⟨"A", 1, "B", 0⟩ ⟨[5], []⟩ (by decide) (by decide) (by decide)

/-! ### C2 -/

theorem mem_labelList_taillabel (tc hc : Option Nat) (v : String) :
    (("taillabel", v) ∈ labelList tc hc) ↔ ∃ n, tc = some n ∧ v = toString n := by
  have hne : ("taillabel" : String) ≠ "headlabel" := by decide
  cases tc <;> cases hc <;> simp [labelList, hne]

theorem mem_labelList_headlabel (tc hc : Option Nat) (v : String) :
    (("headlabel", v) ∈ labelList tc hc) ↔ ∃ n, hc = some n ∧ v = toString n := by
  have hne : ("headlabel" : String) ≠ "taillabel" := by decide
  cases tc <;> cases hc <;> simp [labelList, hne]

theorem counterLookup_lookup_none {statuses : List (String × NodeStatus)} {name : String}
    {proj : NodeStatus → List Nat} {i : Nat} (h : statusLookup statuses name = none) :
    counterLookup statuses name proj i = some none := by
  simp [counterLookup, h]

theorem counterLookup_lookup_some {statuses : List (String × NodeStatus)} {name : String}
    {proj : NodeStatus → List Nat} {i : Nat} {s : NodeStatus} {tc : Option Nat}
    (h : statusLookup statuses name = some s)
    (hc : counterLookup statuses name proj i = some tc) :
    ∃ c, (proj s)[i]? = some c ∧ tc = some c := by
  simp only [counterLookup, h] at hc
  cases hg : (proj s).get? i with
  | none => rw [hg] at hc; cases hc
  | some c =>
    rw [hg] at hc
    refine ⟨c, ?_, ?_⟩
    · rw [← List.get?_eq_getElem?]
      exact hg
    · injection hc with h2
      exact h2.symm

/-- C2: for every snapshot and edge for which the build succeeds (no
out-of-bounds counter access), the edge statement of the produced
description carries exactly the labels of the nodes present in the
snapshot: no taillabel when the tail node has no snapshot entry, and a
taillabel equal to the recorded output-written counter at the declared
tail port index when it has one; symmetrically for the headlabel with
the input-read counter at the head port index. -/
theorem c2_labels_iff_snapshot (statuses : List (String × NodeStatus)) (e : Edge)
    (attrs : List (String × String)) (h : edgeAttrs statuses e = some attrs) :
    edgeText statuses e =
      some (node_name_to_dot_id e.tail_name ++ " -> " ++ node_name_to_dot_id e.head_name
        ++ " [" ++ attrsText 0 attrs ++ "]\n") ∧
    (statusLookup statuses e.tail_name = none → ∀ v, ("taillabel", v) ∉ attrs) ∧
    (∀ s, statusLookup statuses e.tail_name = some s →
      ∃ c, s.output_written[e.tail_index]? = some c ∧ ("taillabel", toString c) ∈ attrs) ∧
    (statusLookup statuses e.head_name = none → ∀ v, ("headlabel", v) ∉ attrs) ∧
    (∀ s, statusLookup statuses e.head_name = some s →
      ∃ c, s.input_read[e.head_index]? = some c ∧ ("headlabel", toString c) ∈ attrs) := by
  have hEdgeText : edgeText statuses e =
      some (node_name_to_dot_id e.tail_name ++ " -> " ++ node_name_to_dot_id e.head_name
        ++ " [" ++ attrsText 0 attrs ++ "]\n") := by
    simp [edgeText, h]
  refine ⟨hEdgeText, ?_⟩
  unfold edgeAttrs at h
  cases hct : counterLookup statuses e.tail_name NodeStatus.output_written e.tail_index with
  | none => rw [hct] at h; cases h
  | some tc =>
    rw [hct] at h
    cases hch : counterLookup statuses e.head_name NodeStatus.input_read e.head_index with
    | none => rw [hch] at h; cases h
    | some hc =>
      rw [hch] at h
      have hattrs : attrs = labelList tc hc := by
        injection h with h2
        exact h2.symm
      subst hattrs
      refine ⟨?_, ?_, ?_, ?_⟩
      · intro hnone v
        have h1 := @counterLookup_lookup_none statuses e.tail_name
          NodeStatus.output_written e.tail_index hnone
        rw [hct] at h1
        injection h1 with h2
        subst h2
        simp [mem_labelList_taillabel]
      · intro s hs
        obtain ⟨c, hg, htc⟩ := counterLookup_lookup_some hs hct
        exact ⟨c, hg, (mem_labelList_taillabel tc hc (toString c)).mpr ⟨c, htc, rfl⟩⟩
      · intro hnone v
        have h1 := @counterLookup_lookup_none statuses e.head_name
          NodeStatus.input_read e.head_index hnone
        rw [hch] at h1
        injection h1 with h2
        subst h2
        simp [mem_labelList_headlabel]
      · intro s hs
        obtain ⟨c, hg, hhc⟩ := counterLookup_lookup_some hs hch
        exact ⟨c, hg, (mem_labelList_headlabel tc hc (toString c)).mpr ⟨c, hhc, rfl⟩⟩

/-- C2 witness: in the scenario snapshot, the edge from A to B gets the
taillabel of the counter of A and the headlabel of the counter of B. -/
theorem c2_labels_iff_snapshot_witness :
    edgeText exStatuses ⟨"A", 0, "B", 0⟩ =
      some (node_name_to_dot_id "A" ++ " -> " ++ node_name_to_dot_id "B"
        ++ " [" ++ attrsText 0 [("taillabel", "5"), ("headlabel", "3")] ++ "]\n") ∧
    (statusLookup exStatuses "A" = none →
      ∀ v, ("taillabel", v) ∉ [("taillabel", "5"), ("headlabel", "3")]) ∧
    (∀ s, statusLookup exStatuses "A" = some s →
      ∃ c, s.output_written[(0 : Nat)]? = some c ∧
        ("taillabel", toString c) ∈ [("taillabel", "5"), ("headlabel", "3")]) ∧
    (statusLookup exStatuses "B" = none →
      ∀ v, ("headlabel", v) ∉ [("taillabel", "5"), ("headlabel", "3")]) ∧
    (∀ s, statusLookup exStatuses "B" = some s →
      ∃ c, s.input_read[(0 : Nat)]? = some c ∧
        ("headlabel", toString c) ∈ [("taillabel", "5"), ("headlabel", "3")]) :=
  c2_labels_iff_snapshot exStatuses ⟨"A", 0, "B", 0⟩
    [("taillabel", "5"), ("headlabel", "3")] (by decide)

/-! ### C3 and C7: the cancellation race -/

theorem cancelAt_eq_false {c t : Nat} (h : t < c) : cancelAt c t = false := by
  simp only [cancelAt, decide_eq_false_iff_not]
  omega

theorem cancelAt_eq_true {c t : Nat} (h : c ≤ t) : cancelAt c t = true := by
  simp only [cancelAt, decide_eq_true_eq]
  exact h

theorem runCycle_complete (c t : Nat) (h : t + 5 ≤ c) :
    runCycle (cancelAt c) t stepsOfCycle = (fullCycle, true, t + 5) := by
  have h0 : cancelAt c t = false := cancelAt_eq_false (by omega)
  have h2 : cancelAt c (t + 1 + 1) = false := cancelAt_eq_false (by omega)
  have h4 : cancelAt c (t + 1 + 1 + 1 + 1) = false := cancelAt_eq_false (by omega)
  simp [runCycle, stepsOfCycle, isSuspension, fullCycle, h0, h2, h4]

theorem runCycle_abandon_render (c t : Nat) (h1 : t < c) (h2 : c ≤ t + 2) :
    runCycle (cancelAt c) t stepsOfCycle = ([Step.fetch, Step.build], false, t + 1 + 1) := by
  have h0 : cancelAt c t = false := cancelAt_eq_false h1
  have hr : cancelAt c (t + 1 + 1) = true := cancelAt_eq_true (by omega)
  simp [runCycle, stepsOfCycle, isSuspension, h0, hr]

theorem runCycle_abandon_wait (c t : Nat) (h1 : t + 2 < c) (h2 : c ≤ t + 4) :
    runCycle (cancelAt c) t stepsOfCycle =
      ([Step.fetch, Step.build, Step.render, Step.deliver], false, t + 1 + 1 + 1 + 1) := by
  have h0 : cancelAt c t = false := cancelAt_eq_false (by omega)
  have h2' : cancelAt c (t + 1 + 1) = false := cancelAt_eq_false (by omega)
  have h4 : cancelAt c (t + 1 + 1 + 1 + 1) = true := cancelAt_eq_true (by omega)
  simp [runCycle, stepsOfCycle, isSuspension, h0, h2', h4]

theorem runLoop_cycles (c : Nat) : ∀ (k fuel t : Nat), k < fuel → t + 5 * k ≤ c →
    runLoop (cancelAt c) fuel t =
      List.flatten (List.replicate k fullCycle) ++ runLoop (cancelAt c) (fuel - k) (t + 5 * k) := by
  intro k
  induction k with
  | zero => intro fuel t _ _; simp
  | succ k ih =>
    intro fuel t hf hc
    cases fuel with
    | zero => omega
    | succ f =>
      have hcyc := runCycle_complete c t (by omega)
      have hrest := ih f (t + 5) (by omega) (by omega)
      have harg : t + 5 + 5 * k = t + 5 * (k + 1) := by ring
      have hfuel : Nat.succ f - (k + 1) = f - k := by omega
      rw [harg] at hrest
      simp only [runLoop, hcyc, hrest, hfuel, List.replicate_succ, List.flatten_cons,
        List.append_assoc]

theorem count_fetch_flatten (k : Nat) :
    (List.flatten (List.replicate k fullCycle)).count Step.fetch = k := by
  induction k with
  | zero => rfl
  | succ k ih =>
    have h1 : fullCycle.count Step.fetch = 1 := by decide
    simp [List.replicate_succ, List.flatten_cons, List.count_append, ih, h1]
    omega

/-- C3 counterexample: the claim states that once a cycle has started it
always runs to completion through fetch, build, render, delivery and the
interval wait before cancellation can take effect. Here cancellation
fires at instant 2, while the first cycle is parked awaiting the dot
child process: the cycle has started (fetch and build have executed), yet
delivery and the wait never happen and the loop goes straight to
disconnect, so the claim as stated is false. -/
theorem c3_counterexample :
    runLoop (cancelAt 2) 1 0 = [Step.fetch, Step.build, Step.disconnect] ∧
    Step.deliver ∉ runLoop (cancelAt 2) 1 0 ∧
    Step.wait ∉ runLoop (cancelAt 2) 1 0 := by decide

/-- C3 (amended): the select races the whole cycle against cancellation,
so cancellation is observed at every suspension point of the in-flight
cycle, not only at the top: when cancellation fires while cycle k is
parked at its render await, the k completed cycles stand, the in-flight
cycle stops after fetch and build (its remaining steps are abandoned) and
the loop proceeds directly to disconnect. Only the synchronous segments
between suspension points run to completion. -/
theorem c3_cancellation_mid_cycle (k fuel : Nat) (hf : k < fuel) :
    runLoop (cancelAt (5 * k + 2)) fuel 0 =
      List.flatten (List.replicate k fullCycle)
        ++ [Step.fetch, Step.build, Step.disconnect] := by
  have h1 := runLoop_cycles (5 * k + 2) k fuel 0 hf (by omega)
  have hz : (0 : Nat) + 5 * k = 5 * k := by omega
  rw [hz] at h1
  rw [h1]
  cases hm : fuel - k with
  | zero => omega
  | succ m =>
    have hcyc := runCycle_abandon_render (5 * k + 2) (5 * k) (by omega) (by omega)
    simp [runLoop, hcyc]

/-- C3 witness: cancellation at instant 7 (render await of the second
cycle) yields one full cycle and an abandoned second cycle. -/
theorem c3_cancellation_mid_cycle_witness :
    runLoop (cancelAt (5 * 1 + 2)) 2 0 =
      List.flatten (List.replicate 1 fullCycle)
        ++ [Step.fetch, Step.build, Step.disconnect] :=
  c3_cancellation_mid_cycle 1 2 (by decide)

/-- C7: when cancellation fires after cycle k has passed its render await
but no later than its interval wait (so it is observed while the loop is
parked in the 3000 ms wait), the loop abandons the wait, issues no
further RPC request and proceeds directly to disconnect: the trace
consists of the k completed cycles, the final cycle up to delivery, and
disconnect; in particular exactly k + 1 statuses fetches ever happen. -/
theorem c7_cancel_during_wait (k fuel c : Nat) (hf : k < fuel)
    (h1 : 5 * k + 2 < c) (h2 : c ≤ 5 * k + 4) :
    runLoop (cancelAt c) fuel 0 =
      List.flatten (List.replicate k fullCycle)
        ++ [Step.fetch, Step.build, Step.render, Step.deliver, Step.disconnect] ∧
    (runLoop (cancelAt c) fuel 0).count Step.fetch = k + 1 := by
  have h0 := runLoop_cycles c k fuel 0 hf (by omega)
  have hz : (0 : Nat) + 5 * k = 5 * k := by omega
  rw [hz] at h0
  have htrace : runLoop (cancelAt c) fuel 0 =
      List.flatten (List.replicate k fullCycle)
        ++ [Step.fetch, Step.build, Step.render, Step.deliver, Step.disconnect] := by
    rw [h0]
    cases hm : fuel - k with
    | zero => omega
    | succ m =>
      have hcyc := runCycle_abandon_wait c (5 * k) (by omega) (by omega)
      simp [runLoop, hcyc]
  refine ⟨htrace, ?_⟩
  rw [htrace, List.count_append, count_fetch_flatten]
  have hone : ([Step.fetch, Step.build, Step.render, Step.deliver,
      Step.disconnect]).count Step.fetch = 1 := by decide
  rw [hone]

/-- C7 witness: cancellation at instant 4, the wait of the first cycle. -/
theorem c7_cancel_during_wait_witness :
    runLoop (cancelAt 4) 1 0 =
      List.flatten (List.replicate 0 fullCycle)
        ++ [Step.fetch, Step.build, Step.render, Step.deliver, Step.disconnect] ∧
    (runLoop (cancelAt 4) 1 0).count Step.fetch = 0 + 1 :=
  c7_cancel_during_wait 0 1 4 (by decide) (by decide) (by decide)

/-! ### C6 -/

theorem send_empty_buffer (ch : Channel) (v : String) (h : ch.buffer = []) :
    send ch v = SendResult.sent { ch with buffer := [v] } := by
  simp [send, channelBound, h]

theorem applyOp_bound (ch : Channel) (op : ChanOp) (h : ch.buffer.length ≤ 1) :
    (applyOp ch op).buffer.length ≤ 1 := by
  cases op with
  | opSend v =>
    by_cases hlt : ch.buffer.length < channelBound
    · have h1 : ch.buffer.length < 1 := hlt
      have hz : ch.buffer = [] := List.eq_nil_of_length_eq_zero (Nat.lt_one_iff.mp h1)
      simp [applyOp, send, channelBound, hz]
    · simp [applyOp, send, hlt]
      exact h
  | opRecv =>
    cases hlist : ch.buffer with
    | nil =>
      simp [applyOp, tryRecv, hlist]
      split <;> simp [hlist]
    | cons w rest =>
      have hr : rest.length = 0 := by
        rw [hlist, List.length_cons] at h
        omega
      simp [applyOp, tryRecv, hlist, hr]
  
theorem runOps_bound (ops : List ChanOp) : (runOps ops).buffer.length ≤ 1 := by
  have hgen : ∀ (l : List ChanOp) (ch : Channel), ch.buffer.length ≤ 1 →
      (l.foldl applyOp ch).buffer.length ≤ 1 := by
    intro l
    induction l with
    | nil => intro ch h; simpa using h
    | cons op t ih => intro ch h; exact ih (applyOp ch op) (applyOp_bound ch op h)
  exact hgen ops ⟨[], false⟩ (by simp)

/-- C6: in every state the channel can reach from its initial empty open
state, at most one undelivered item is buffered; a send attempted while
that one item is still undrained blocks (does not enqueue a second item);
and after any try_recv a send succeeds again, keeping the bound. The
producer can therefore never be more than one item ahead of the
consumer. -/
theorem c6_single_slot_backpressure (ops : List ChanOp) (v : String) :
    (runOps ops).buffer.length ≤ 1 ∧
    ((runOps ops).buffer.length = 1 → send (runOps ops) v = SendResult.wouldBlock) ∧
    (∀ r ch2, tryRecv (runOps ops) = (r, ch2) →
      ∃ ch3, send ch2 v = SendResult.sent ch3 ∧ ch3.buffer.length ≤ 1) := by
  refine ⟨runOps_bound ops, ?_, ?_⟩
  · intro h1
    simp [send, channelBound, h1]
  · intro r ch2 htr
    have hb := runOps_bound ops
    cases hlist : (runOps ops).buffer with
    | nil =>
      cases hd : (runOps ops).senderDropped with
      | true =>
        have htr2 : tryRecv (runOps ops) = (TryRecvResult.closed, runOps ops) := by
          simp [tryRecv, hlist, hd]
        rw [htr2] at htr
        cases htr
        exact ⟨_, send_empty_buffer (runOps ops) v hlist, by simp⟩
      | false =>
        have htr2 : tryRecv (runOps ops) = (TryRecvResult.empty, runOps ops) := by
          simp [tryRecv, hlist, hd]
        rw [htr2] at htr
        cases htr
        exact ⟨_, send_empty_buffer (runOps ops) v hlist, by simp⟩
    | cons w rest =>
      have hrest : rest = [] := by
        rw [hlist, List.length_cons] at hb
        exact List.eq_nil_of_length_eq_zero (by omega)
      have htr2 : tryRecv (runOps ops) =
          (TryRecvResult.item w, { runOps ops with buffer := rest }) := by
        simp [tryRecv, hlist]
      rw [htr2] at htr
      cases htr
      exact ⟨_, send_empty_buffer { runOps ops with buffer := rest } v (by simp [hrest]), by simp⟩

/-- C6 witness: after one successful send, a second send while the item
is undrained blocks. -/
theorem c6_single_slot_backpressure_witness :
    (runOps [ChanOp.opSend "a"]).buffer.length ≤ 1 ∧
    send (runOps [ChanOp.opSend "a"]) "b" = SendResult.wouldBlock :=
  ⟨(c6_single_slot_backpressure [ChanOp.opSend "a"] "b").1,
   (c6_single_slot_backpressure [ChanOp.opSend "a"] "b").2.1 (by decide)⟩
